import Mathlib

/-!
Shallow embedding of the ogov-importer core (src/lib/PopoloStorer.js):
the `toPopolo` stage classifier / bill normalizer and the `pushToBillit`
publish step.  JavaScript strings, `undefined`/`null` values, truthiness,
strict equality, `indexOf`, `substr` and first-occurrence `replace` are
modelled explicitly; `Date.parse`/`new Date(...)` is an oracle parameter
`parse : Option String → JsDate` and the current date (`new Date()`) is a
parameter `now : JsDate`, so the classifier is a pure function of both.
-/

/-- A JavaScript value as far as the strict-equality comparisons in
PopoloStorer.js need: `undefined`, a number, or a string.  (`null` and
`undefined` are collapsed into `undef`; no comparison whose outcome a claim
depends on distinguishes them.) -/
inductive JSVal where
  | undef : JSVal
  | num : Int → JSVal
  | str : String → JSVal
deriving DecidableEq

/-- JavaScript strict equality `===` on `JSVal`: values of different types
are never equal, so a string never strictly equals a number and `undefined`
never strictly equals a string. -/
def jsStrictEq : JSVal → JSVal → Bool
  | JSVal.undef, JSVal.undef => true
  | JSVal.num a, JSVal.num b => a == b
  | JSVal.str a, JSVal.str b => a == b
  | _, _ => false

/-- Truthiness of an optional JS string: `undefined`, `null` and the empty
string are falsy, every other string is truthy (`!x` in the source). -/
def jsFalsy : Option String → Bool
  | none => true
  | some s => s == ""

/-- Character-list version of "pat occurs at the head of l". -/
def startsWithList : List Char → List Char → Bool
  | [], _ => true
  | _ :: _, [] => false
  | p :: ps, c :: cs => p == c && startsWithList ps cs

/-- First index (from `i`) at which `pat` occurs in `l`, if any. -/
def idxOfAux (pat : List Char) : List Char → Nat → Option Nat
  | l, i =>
    if startsWithList pat l then some i
    else
      match l with
      | [] => none
      | _ :: t => idxOfAux pat t (i + 1)

/-- JS `s.indexOf(pat)`: the first occurrence index, or `-1` when `pat`
does not occur in `s`. -/
def jsIndexOf (s pat : String) : Int :=
  match idxOfAux pat.toList s.toList 0 with
  | some i => (i : Int)
  | none => -1

/-- JS `s.indexOf(pat) > -1`, the containment tests of the source. -/
def jsContains (s pat : String) : Bool :=
  jsIndexOf s pat > -1

/-- JS `s.substr(start, len)` for a non-negative start. -/
def jsSubstr (s : String) (start len : Nat) : String :=
  ((s.toList.drop start).take len).asString

/-- JS `s.replace(pat, repl)`: replaces only the first occurrence. -/
def jsReplaceFirst (s pat repl : String) : String :=
  match idxOfAux pat.toList s.toList 0 with
  | none => s
  | some k =>
      (s.toList.take k ++ repl.toList ++ s.toList.drop (k + pat.toList.length)).asString

/-- A parsed JS date as far as the source reads it: `month` is the
`getMonth()` value (0 = January … 11 = December) and `year` the
`getFullYear()` value. -/
structure JsDate where
  year : Int
  month : Nat
deriving DecidableEq

/-- JS `Date.prototype.getYear()`: the full year minus 1900. -/
def jsGetYear (d : JsDate) : Int :=
  d.year - 1900

/-- A subscriber record of a raw bill (BillImporter.js, extractSubscribers). -/
structure Subscriber where
  name : String
  party : String
  province : String
deriving DecidableEq

/-- A raw dictum record (BillImporter.js, extractDictums): `date` and
`result` may be absent (`none`), `source` is always a string. -/
structure RawDictum where
  source : String
  orderPaper : Option String
  date : Option String
  result : Option String
deriving DecidableEq

/-- A raw procedure record (BillImporter.js, extractProcedures). -/
structure RawProcedure where
  source : String
  topic : Option String
  date : Option String
  result : Option String
deriving DecidableEq

/-- The raw bill handed to `toPopolo` (assembled by BillImporter.js).
Note it has no `date` field, so the source expression `ogovBill.date`
evaluates to `undefined`. -/
structure RawBill where
  file : String
  type : String
  source : String
  creationTime : String
  summary : Option String
  lawNumber : Option String
  textUrl : Option String
  committees : List String
  subscribers : List Subscriber
  dictums : List RawDictum
  procedures : List RawProcedure
deriving DecidableEq

/-- An output paperwork record (PopoloStorer.js, the dictums map). -/
structure Paperwork where
  session : Option String
  date : Option String
  step : Option String
  stage : String
  chamber : String
  bill_id : String
  bill_uid : String
  timeline_status : String
deriving DecidableEq

/-- An output directive record (PopoloStorer.js, the procedures map).
It carries a `source` field and no `chamber` field, so the source
expression `billitDirective.chamber` evaluates to `undefined`. -/
structure Directive where
  date : Option String
  step : Option String
  stage : Option String
  link : String
  bill_uid : String
  bill_id : String
  source : String
deriving DecidableEq

namespace STAGE

def SUBMITTED : String := "Ingresado"

def CONSIDERING : String := "En consideración"

def DICTUM_ORIGIN : String := "Con dictámen en Cámara de Orígen"

def HALF_SANCTION : String := "Con media sanción"

def DICTUM_REVISORY : String := "Con dictámen en Cámara Revisora"

def APPROVED : String := "Aprobado o sancionado"

def REJECTED : String := "Rechazado"

def PARLIAMENTARY_STATUS_LOST : String := "Perdida de estado parlamentario"

end STAGE

/-- The output bill record built by `toPopolo` (only fields the source
populates; the always-empty collections are kept for schema fidelity). -/
structure Bill where
  uid : String
  title : String
  creation_date : String
  source : String
  initial_chamber : String
  bill_draft_link : Option String
  subject_areas : List String
  authors : List String
  paperworks : List Paperwork
  directives : List Directive
  lawNumber : Option String
  stage : String
  project_type : String
  current_priority : String
  priorities : List String
  reports : List String
  documents : List String
  remarks : List String
  revisions : List String
deriving DecidableEq

/-- PopoloStorer.js lines 94-112, one dictum: if the dictum date is falsy,
the source (after possibly logging) assigns `dictum["date"] = ogovBill.date`,
and the raw bill has no `date` field, so the dictum date becomes `undefined`;
the mutated dictum is returned alongside the paperwork built from it. -/
def dictumToPaperwork (file : String) (d : RawDictum) : Paperwork × RawDictum :=
  let d1 := if jsFalsy d.date then { d with date := none } else d
  ({ session := d1.orderPaper,
     date := d1.date,
     step := d1.result,
     stage := "",
     chamber := d1.source,
     bill_id := file,
     bill_uid := file,
     timeline_status := "Indicaciones" }, d1)

/-- Maps the dictum list to the paperwork list, also returning the list of
dictum records as they stand after the in-place date backfill. -/
def mapDictums (file : String) : List RawDictum → List Paperwork × List RawDictum
  | [] => ([], [])
  | d :: ds =>
      let pd := dictumToPaperwork file d
      let rest := mapDictums file ds
      (pd.1 :: rest.1, pd.2 :: rest.2)

/-- PopoloStorer.js lines 115-145, one procedure.  When the date is falsy the
source evaluates `procedure["topic"].indexOf("COMUNICADO EL")`: on an absent
topic this throws (`none` result); the `if` tests the index for truthiness,
so any index other than `0` (including `-1`, marker absent) selects the
`substr(indexOf + 14, 10)` branch, and index `0` selects the else branch,
which assigns the non-existent `ogovBill.date` (`undefined`).  A falsy topic
is then replaced by "Votación" exactly when the procedure source is
"Senado".  Returns the directive and the mutated procedure record. -/
def procedureToDirective (file : String) (p : RawProcedure) :
    Option (Directive × RawProcedure) :=
  let patched : Option RawProcedure :=
    if jsFalsy p.date then
      match p.topic with
      | none => none
      | some t =>
          let k := jsIndexOf t ("COMUNICADO EL")
          if k != 0 then
            some { p with date := some (jsSubstr t (k + 14).toNat 10) }
          else
            some { p with date := none }
    else some p
  match patched with
  | none => none
  | some p1 =>
      let p2 :=
        if jsFalsy p1.topic then
          if p1.source == "Senado" then { p1 with topic := some ("Votación") } else p1
        else p1
      some ({ date := p2.date,
              step := p2.topic,
              stage := p2.result,
              link := "",
              bill_uid := file,
              bill_id := file,
              source := p2.source }, p2)

/-- Maps the procedure list to the directive list (the JS `.map` propagates
the first thrown exception), also returning the mutated procedure records. -/
def mapProcedures (file : String) :
    List RawProcedure → Option (List Directive × List RawProcedure)
  | [] => some ([], [])
  | p :: ps =>
      match procedureToDirective file p with
      | none => none
      | some dp =>
          match mapProcedures file ps with
          | none => none
          | some rest => some (dp.1 :: rest.1, dp.2 :: rest.2)

/-- PopoloStorer.js lines 179-188, one paperwork of the dictum pass: the
guard is `billitPaperwork.chamber === -1`, a strict comparison of the
string-valued `chamber` with the number `-1`. -/
def dictumStep (bill_source : String) (stage : String) (p : Paperwork) : String :=
  if jsStrictEq (JSVal.str p.chamber) (JSVal.num (-1)) then
    if p.chamber == bill_source then STAGE.DICTUM_ORIGIN else STAGE.DICTUM_REVISORY
  else stage

/-- The dictum pass: a left fold of `dictumStep` over the paperworks. -/
def dictumPass (bill_source : String) (stage : String) (ps : List Paperwork) : String :=
  ps.foldl (dictumStep bill_source) stage

/-- The mutable state threaded through the directive pass: the bill stage
and the `project_duration` variable. -/
structure InferState where
  stage : String
  duration : Int
deriving DecidableEq

/-- PopoloStorer.js lines 200-239, the origin-chamber branch of the
directive pass (entered when `billitDirective.chamber === billitBill.source`
holds).  `billitDirective.step.indexOf` throws when the step is absent. -/
def originBranch (parse : Option String → JsDate) (creation_year : Int)
    (st : InferState) (d : Directive) : Option InferState :=
  match d.step with
  | none => none
  | some s =>
      if jsContains s ("CONSIDERACION") || jsContains s ("ARTICULO 114") ||
          jsContains s ("ARTICULO 204") then
        if d.stage == some ("MEDIA SANCION") then
          let directive_year := jsGetYear (parse d.date)
          some { stage := STAGE.HALF_SANCTION,
                 duration := if directive_year > creation_year then 3 else st.duration }
        else if d.stage == some ("SANCIONADO") || d.stage == some ("APROBADO") then
          some { st with stage := STAGE.APPROVED }
        else if d.stage == some ("RECHAZADO") then
          some { st with stage := STAGE.REJECTED }
        else if d.stage == some ("") then
          some { st with stage := STAGE.CONSIDERING }
        else
          some st
      else if jsContains s ("SOLICITUD DE SER COFIRMANTE") then
        some st
      else if jsContains s ("TABLAS") then
        some st
      else if jsContains s ("SESION ESPECIAL") then
        some st
      else
        some st

/-- The stage update of the revisory-chamber branch, PopoloStorer.js lines
243-277: only a step containing "CONSIDERACION" can change the stage
(`billitDirective.stage === null` is the absent-stage test), and every
branch of the trailing `else if` chain (lines 264-277) leaves it alone. -/
def revisoryStageUpd (s : String) (stg : Option String) (old : String) : String :=
  if jsContains s ("CONSIDERACION") then
    if stg == some ("MEDIA SANCION") then STAGE.HALF_SANCTION
    else if stg == some ("SANCIONADO") || stg == some ("APROBADO") then STAGE.APPROVED
    else if stg == some ("RECHAZADO") then STAGE.REJECTED
    else if stg == some ("ARCHIVADO") then STAGE.APPROVED
    else if stg == none then STAGE.CONSIDERING
    else old
  else if !jsContains s ("SOLICITUD DE SER COFIRMANTE") then old
  else if !jsContains s ("TABLAS") then old
  else if !jsContains s ("SESION ESPECIAL") then old
  else old

/-- PopoloStorer.js lines 241-278, the revisory-chamber branch of the
directive pass.  `billitDirective.step.indexOf` throws when the step is
absent; otherwise the stage is updated per `revisoryStageUpd` and the
`project_duration` variable is untouched. -/
def revisoryBranch (st : InferState) (d : Directive) : Option InferState :=
  match d.step with
  | none => none
  | some s => some { st with stage := revisoryStageUpd s d.stage st.stage }

/-- PopoloStorer.js line 200: the branch guard of the directive pass is
`billitDirective.chamber === billitBill.source`; the directive record
carries no `chamber` property, so the left operand is `undefined`. -/
def directiveStep (parse : Option String → JsDate) (creation_year : Int)
    (bill_source : String) (st : InferState) (d : Directive) : Option InferState :=
  if jsStrictEq JSVal.undef (JSVal.str bill_source) then
    originBranch parse creation_year st d
  else
    revisoryBranch st d

/-- Left fold of a possibly-throwing step function (a JS `forEach` whose
callback may throw). -/
def optFold {σ α : Type} (f : σ → α → Option σ) : σ → List α → Option σ
  | st, [] => some st
  | st, x :: xs =>
      match f st x with
      | none => none
      | some st1 => optFold f st1 xs

/-- The directive pass, PopoloStorer.js lines 199-280. -/
def directivePass (parse : Option String → JsDate) (creation_year : Int)
    (bill_source : String) (st : InferState) (ds : List Directive) :
    Option InferState :=
  optFold (directiveStep parse creation_year bill_source) st ds

/-- The refinement target of the directive pass, following the spec-level
description of the observed behaviour: the revisory-chamber rules applied
to every directive unconditionally. -/
def revisoryAllPass (st : InferState) (ds : List Directive) : Option InferState :=
  optFold revisoryBranch st ds

/-- PopoloStorer.js lines 296-300: the creation year (a `getYear()` value)
is decremented when `creation_date.getMonth() < 3`, i.e. for the 0-based
months 0, 1 and 2 (January, February and March). -/
def creationYearAdj (cd : JsDate) : Int :=
  if cd.month < 3 then jsGetYear cd - 1 else jsGetYear cd

/-- The parliamentary-period expiry condition, PopoloStorer.js lines
307-314: the project lapses when the adjusted creation year plus the
project duration is strictly below the current `getYear()`, or equals it
with the current month at least 3 (April onwards, 0-based). -/
def expiryFires (cd now : JsDate) (dur : Int) : Bool :=
  decide (creationYearAdj cd + dur < jsGetYear now) ||
    (creationYearAdj cd + dur == jsGetYear now && decide (3 ≤ now.month))

/-- PopoloStorer.js lines 87-318, `toPopolo`: builds the output bill and
infers its stage.  Returns `none` when the source would throw, and
otherwise the bill together with the raw bill as it stands after the
in-place backfills (the caller's record is mutated).  `parse` stands for
`new Date(Date.parse(x))` and `now` for `new Date()`. -/
def toPopolo (parse : Option String → JsDate) (now : JsDate) (ogovBill : RawBill) :
    Option (Bill × RawBill) :=
  let billitAuthors := ogovBill.subscribers.map (fun s => s.name)
  let pwres := mapDictums ogovBill.file ogovBill.dictums
  match mapProcedures ogovBill.file ogovBill.procedures with
  | none => none
  | some dirres =>
      let title :=
        if jsFalsy ogovBill.summary then "ERROR - LEY SIN SUMARIO"
        else jsReplaceFirst (ogovBill.summary.getD "") ("%") ("\\%")
      let stage1 := dictumPass ogovBill.source STAGE.SUBMITTED pwres.1
      let creation_date := parse (some ogovBill.creationTime)
      let creation_year := jsGetYear creation_date
      match directivePass parse creation_year ogovBill.source
          { stage := stage1, duration := 2 } dirres.1 with
      | none => none
      | some st2 =>
          let stage3 := if jsFalsy ogovBill.lawNumber then st2.stage else STAGE.APPROVED
          let creation_year2 := creationYearAdj creation_date
          let stage4 :=
            if creation_year2 + st2.duration < jsGetYear now then
              STAGE.PARLIAMENTARY_STATUS_LOST
            else stage3
          let stage5 :=
            if creation_year2 + st2.duration == jsGetYear now && decide (3 ≤ now.month) then
              STAGE.PARLIAMENTARY_STATUS_LOST
            else stage4
          some ({ uid := ogovBill.file,
                  title := title,
                  creation_date := ogovBill.creationTime,
                  source := ogovBill.source,
                  initial_chamber := ogovBill.source,
                  bill_draft_link := ogovBill.textUrl,
                  subject_areas := ogovBill.committees,
                  authors := billitAuthors,
                  paperworks := pwres.1,
                  directives := dirres.1,
                  lawNumber := ogovBill.lawNumber,
                  stage := stage5,
                  project_type := jsReplaceFirst ogovBill.type ("PROYECTO DE ") (""),
                  current_priority := "Normal",
                  priorities := [],
                  reports := [],
                  documents := [],
                  remarks := [],
                  revisions := [] },
            { ogovBill with dictums := pwres.2, procedures := dirres.2 })

/-- The outcome of the existence check (`GET {url}/bills/{uid}.json`):
either no response at all (connection failure) or an HTTP status code. -/
inductive CheckResult where
  | noResponse : CheckResult
  | status : Nat → CheckResult
deriving DecidableEq

/-- An HTTP write request issued by the publish step. -/
structure WriteRequest where
  method : String
  uri : String
deriving DecidableEq

/-- The observable outcome of one publish: the write requests issued and
the number of completion-callback invocations. -/
structure PushOutcome where
  writes : List WriteRequest
  callbackInvocations : Nat
deriving DecidableEq

/-- PopoloStorer.js lines 326-383, `pushToBillit`: after the existence
check, no response or status exactly 500 aborts with no write and an
immediate callback; status 200 issues a PUT to the bill's resource path;
every other status issues a POST to the collection path.  The write's own
response handler (whatever the status) invokes the callback once; no path
retries. -/
def pushToBillit (billitUrl : String) (uid : String) (check : CheckResult) :
    PushOutcome :=
  let url := billitUrl ++ "/bills"
  match check with
  | CheckResult.noResponse => { writes := [], callbackInvocations := 1 }
  | CheckResult.status code =>
      if code == 500 then
        { writes := [], callbackInvocations := 1 }
      else if code == 200 then
        { writes := [{ method := "PUT", uri := url ++ "/" ++ uid }],
          callbackInvocations := 1 }
      else
        { writes := [{ method := "POST", uri := url }],
          callbackInvocations := 1 }

/-- The guard of the directive pass's origin branch is identically false:
`undefined` is never strictly equal to a string. -/
theorem jsStrictEq_undef_str (s : String) :
    jsStrictEq JSVal.undef (JSVal.str s) = false := rfl

/-- The guard of the dictum pass is identically false: a string is never
strictly equal to the number `-1`. -/
theorem jsStrictEq_str_num (s : String) (n : Int) :
    jsStrictEq (JSVal.str s) (JSVal.num n) = false := rfl

/-- Every step of the directive pass takes the revisory-chamber branch. -/
theorem directiveStep_eq_revisory (parse : Option String → JsDate)
    (creation_year : Int) (bill_source : String) (st : InferState) (d : Directive) :
    directiveStep parse creation_year bill_source st d = revisoryBranch st d := by
  simp [directiveStep, jsStrictEq_undef_str]

/-- The revisory branch never changes the `project_duration` component. -/
theorem revisoryBranch_duration (st : InferState) (d : Directive) (st1 : InferState)
    (h : revisoryBranch st d = some st1) : st1.duration = st.duration := by
  cases hs : d.step with
  | none => simp [revisoryBranch, hs] at h
  | some s =>
      simp only [revisoryBranch, hs] at h
      cases h
      rfl

/-- A raw bill with no dictums, no procedures and no law number, used as the
base of the concrete inputs below. -/
def emptyBill : RawBill :=
  { file := "0001-D-2013", type := "PROYECTO DE LEY", source := "Diputados",
    creationTime := "2013-06-15", summary := some ("Un proyecto"),
    lawNumber := none, textUrl := none, committees := [], subscribers := [],
    dictums := [], procedures := [] }

/-- Input for C1: an enacted bill (law 27000) created in June 2010, observed
in June 2026, far past its parliamentary period. -/
def C1bill : RawBill :=
  { emptyBill with file := "0001-D-2010", creationTime := "2010-06-15",
                   lawNumber := some ("27000") }

/-- Input for C2: a bill from Diputados whose only procedure is an
origin-chamber "ARTICULO 114" consideration with result SANCIONADO. -/
def C2bill : RawBill :=
  { emptyBill with file := "0002-D-2014", creationTime := "2014-06-01",
                   procedures := [{ source := "Diputados",
                                    topic := some ("ARTICULO 114"),
                                    date := some ("2014-08-01"),
                                    result := some ("SANCIONADO") }] }

/-- Input for C3: a bill from Diputados with a single same-chamber dictum
and nothing else. -/
def C3bill : RawBill :=
  { emptyBill with file := "0003-D-2014", creationTime := "2014-06-01",
                   dictums := [{ source := "Diputados",
                                 orderPaper := some ("33/2014"),
                                 date := some ("2014-08-01"),
                                 result := some ("APROBADO") }] }

/-- Input for C4: a bill whose only procedure has neither topic nor date. -/
def C4bill : RawBill :=
  { emptyBill with file := "0004-D-2013",
                   procedures := [{ source := "Senado", topic := none,
                                    date := none, result := some ("") }] }

/-- Input for C5: a bill created in March 2013 (a `getMonth()` value of 2). -/
def C5bill : RawBill :=
  { emptyBill with file := "0005-D-2013", creationTime := "2013-03-15" }

/-- Input for C6: a bill with one dateless dictum and one dateless procedure
whose topic does not contain the "COMUNICADO EL" marker. -/
def C6bill : RawBill :=
  { emptyBill with file := "0006-D-2014", creationTime := "2014-06-01",
                   dictums := [{ source := "Diputados", orderPaper := none,
                                 date := none, result := some ("APROBADO") }],
                   procedures := [{ source := "Diputados",
                                    topic := some ("PASA A LA H. CAMARA DE DIPUTADOS"),
                                    date := none, result := some ("") }] }

/-- Input for C9's counterexample: a bill with a dateless procedure, whose
date field is backfilled in place. -/
def C9bill : RawBill :=
  { emptyBill with file := "0009-D-2014", creationTime := "2014-06-01",
                   procedures := [{ source := "Diputados",
                                    topic := some ("PASA A LA H. CAMARA DE DIPUTADOS"),
                                    date := none, result := some ("") }] }

/-- Input for C9's amended theorem's witness: every dictum and procedure
carries a date and a topic, so no backfill fires. -/
def C9goodBill : RawBill :=
  { emptyBill with file := "0010-D-2014", creationTime := "2014-06-01",
                   dictums := [{ source := "Diputados", orderPaper := some ("33/2014"),
                                 date := some ("2014-08-01"),
                                 result := some ("APROBADO") }],
                   procedures := [{ source := "Diputados",
                                    topic := some ("CONSIDERACION EN GENERAL"),
                                    date := some ("2014-09-01"),
                                    result := some ("MEDIA SANCION") }] }

/-- Input for C1's witness: law number present, created June 2014, observed
January 2015, well inside the parliamentary period. -/
def C1wBill : RawBill :=
  { emptyBill with file := "0011-D-2014", creationTime := "2014-06-01",
                   lawNumber := some ("27000") }

/-- C1, counterexample: `C1bill` has the non-empty law number "27000", yet
`toPopolo` classifies it as PARLIAMENTARY_STATUS_LOST, not APPROVED — the
expiry rule (lines 307-314) runs after the law override (lines 283-285)
and overwrites it. -/
theorem C1_counterexample_expiry_beats_law :
    (toPopolo (fun _ => (⟨2010, 5⟩ : JsDate)) (⟨2026, 5⟩ : JsDate) C1bill).map
        (fun r => r.1.stage) =
      some STAGE.PARLIAMENTARY_STATUS_LOST ∧
    STAGE.PARLIAMENTARY_STATUS_LOST ≠ STAGE.APPROVED := by
  exact ⟨rfl, by decide⟩

/-- C2: the only procedure of `C2bill` comes from the bill's own origin
chamber with step "ARTICULO 114" and stage "SANCIONADO"; the claim expects
stage APPROVED, but the branch guard reads the non-existent
`billitDirective.chamber`, so the directive is handled by the
revisory-chamber rules, whose "CONSIDERACION"-only gate ignores it, and
the bill stays SUBMITTED. -/
theorem C2_origin_directive_ignored :
    (toPopolo (fun _ => (⟨2014, 5⟩ : JsDate)) (⟨2015, 0⟩ : JsDate) C2bill).map
        (fun r => r.1.stage) =
      some STAGE.SUBMITTED ∧
    STAGE.SUBMITTED ≠ STAGE.APPROVED := by
  exact ⟨rfl, by decide⟩

/-- C3: `C3bill` carries one same-chamber dictum and nothing else, well
inside its parliamentary period; the claim expects DICTUM_ORIGIN, but the
dictum pass's guard `billitPaperwork.chamber === -1` compares a string with
a number and never fires, so the bill stays SUBMITTED. -/
theorem C3_dictum_pass_never_fires :
    (toPopolo (fun _ => (⟨2014, 5⟩ : JsDate)) (⟨2015, 0⟩ : JsDate) C3bill).map
        (fun r => r.1.stage) =
      some STAGE.SUBMITTED ∧
    STAGE.SUBMITTED ≠ STAGE.DICTUM_ORIGIN ∧
    STAGE.SUBMITTED ≠ STAGE.DICTUM_REVISORY := by
  exact ⟨rfl, by decide, by decide⟩

/-- C4: on `C4bill`, whose only procedure has neither topic nor date,
`toPopolo` throws (modelled as `none`): line 117 evaluates
`procedure["topic"].indexOf(...)` on an undefined topic before the
missing-topic handling of lines 126-134 is reached. -/
theorem C4_throws_on_dateless_topicless_procedure :
    toPopolo (fun _ => (⟨2014, 5⟩ : JsDate)) (⟨2015, 0⟩ : JsDate) C4bill = none := by
  rfl

/-- C5: a creation date in March (`getMonth() = 2`) DOES get its year
decremented, because line 298 tests `getMonth() < 3`, which covers January,
February and March; end to end, `C5bill` (created March 2013, observed
January 2015) is declared PARLIAMENTARY_STATUS_LOST, which the claimed
no-decrement-in-March rule would classify as SUBMITTED. -/
theorem C5_march_is_decremented :
    creationYearAdj (⟨2013, 2⟩ : JsDate) = jsGetYear (⟨2013, 2⟩ : JsDate) - 1 ∧
    creationYearAdj (⟨2013, 1⟩ : JsDate) = jsGetYear (⟨2013, 1⟩ : JsDate) - 1 ∧
    (toPopolo (fun _ => (⟨2013, 2⟩ : JsDate)) (⟨2015, 0⟩ : JsDate) C5bill).map
        (fun r => r.1.stage) =
      some STAGE.PARLIAMENTARY_STATUS_LOST := by
  exact ⟨by decide, by decide, rfl⟩

/-- C6: on `C6bill` the dateless procedure's topic lacks the
"COMUNICADO EL" marker, so `indexOf` yields the truthy `-1` and line 118
stores `topic.substr(13, 10)` — the garbage "CAMARA DE " — instead of the
bill's creation date; and the dateless dictum's paperwork gets `undefined`
(the non-existent `ogovBill.date`), not the creation date. -/
theorem C6_date_backfill_garbage :
    (toPopolo (fun _ => (⟨2014, 5⟩ : JsDate)) (⟨2015, 0⟩ : JsDate) C6bill).map
        (fun r => (r.1.directives.map Directive.date, r.1.paperworks.map Paperwork.date)) =
      some ([some ("CAMARA DE ")], [none]) ∧
    some ("CAMARA DE ") ≠ some ("2014-06-01") := by
  exact ⟨rfl, by decide⟩

/-- C7, counterexample: a 503 existence-check response is a server error,
yet the worker does not abandon the item — line 343 tests for status
exactly 500, so 503 falls through to the create path and a POST is issued. -/
theorem C7_counterexample_503_writes :
    (pushToBillit ("http://x") ("u1") (CheckResult.status 503)).writes =
      [{ method := "POST", uri := "http://x/bills" }] ∧
    [({ method := "POST", uri := "http://x/bills" } : WriteRequest)] ≠ [] := by
  exact ⟨rfl, by decide⟩

/-- C9, counterexample: running `toPopolo` on `C9bill` leaves the caller's
raw bill changed — the dateless procedure's `date` field has been
backfilled in place (with `topic.substr(13, 10)`), so the post-state of
the input differs from the input. -/
theorem C9_counterexample_input_mutated :
    (toPopolo (fun _ => (⟨2014, 5⟩ : JsDate)) (⟨2015, 0⟩ : JsDate) C9bill).map
        (fun r => r.2) ≠ some C9bill := by
  decide

/-- C7, amended: for every publish item whose existence check ends in
connection failure (no response) or in a server error with status exactly
500, the worker issues zero write requests, abandons the item without
retry, and invokes the completion callback exactly once. -/
theorem C7_no_writes_on_check_failure (billitUrl uid : String) (check : CheckResult)
    (h : check = CheckResult.noResponse ∨ check = CheckResult.status 500) :
    (pushToBillit billitUrl uid check).writes = [] ∧
      (pushToBillit billitUrl uid check).callbackInvocations = 1 := by
  rcases h with h | h <;> subst h <;> exact ⟨rfl, rfl⟩

/-- Witness for C7: the amended theorem applied to a status-500 existence
check on a concrete url and uid. -/
theorem C7_no_writes_on_check_failure_witness :
    (pushToBillit ("http://x") ("u9") (CheckResult.status 500)).writes = [] ∧
      (pushToBillit ("http://x") ("u9") (CheckResult.status 500)).callbackInvocations = 1 :=
  C7_no_writes_on_check_failure ("http://x") ("u9") (CheckResult.status 500) (Or.inr rfl)

/-- C10: the directive pass of `toPopolo` equals the function that applies
the revisory-chamber rules to every directive unconditionally — the
origin-chamber branch is unreachable because its guard compares the
directive's non-existent `chamber` property (`undefined`) with the bill's
source string. -/
theorem C10_directive_pass_is_revisory_for_all (parse : Option String → JsDate)
    (creation_year : Int) (bill_source : String) (st : InferState)
    (ds : List Directive) :
    directivePass parse creation_year bill_source st ds = revisoryAllPass st ds := by
  induction ds generalizing st with
  | nil => rfl
  | cons d ds ih =>
      simp only [directivePass, revisoryAllPass, optFold,
        directiveStep_eq_revisory]
      cases revisoryBranch st d with
      | none => rfl
      | some st1 => exact ih st1

/-- The directive pass never changes the `project_duration` component: its
only write sits in the unreachable origin-chamber branch. -/
theorem directivePass_duration (parse : Option String → JsDate) (cy : Int)
    (src : String) (st : InferState) (ds : List Directive) (st2 : InferState)
    (h : directivePass parse cy src st ds = some st2) : st2.duration = st.duration := by
  induction ds generalizing st with
  | nil =>
      simp only [directivePass, optFold, Option.some_inj] at h
      rw [← h]
  | cons d ds ih =>
      simp only [directivePass, optFold, directiveStep_eq_revisory] at h
      cases hr : revisoryBranch st d with
      | none => rw [hr] at h; cases h
      | some st1 =>
          rw [hr] at h
          have hd1 := revisoryBranch_duration st d st1 hr
          have hd2 := ih st1 h
          rw [hd2, hd1]

/-- C8: a raw bill with no dictums, no procedures and a falsy (absent or
empty) law number classifies as SUBMITTED, except that the
parliamentary-period expiry rule (with the default 2-year duration) may
fire and force PARLIAMENTARY_STATUS_LOST. -/
theorem C8_submitted_unless_expired (parse : Option String → JsDate) (now : JsDate)
    (bill : RawBill) (h1 : bill.dictums = []) (h2 : bill.procedures = [])
    (h3 : jsFalsy bill.lawNumber = true) :
    (toPopolo parse now bill).map (fun r => r.1.stage) =
      some (if expiryFires (parse (some bill.creationTime)) now 2 then
              STAGE.PARLIAMENTARY_STATUS_LOST
            else STAGE.SUBMITTED) := by
  have hmap : mapProcedures bill.file bill.procedures = some ([], []) := by
    rw [h2]; rfl
  have hdict : mapDictums bill.file bill.dictums = ([], []) := by
    rw [h1]; rfl
  simp only [toPopolo, hmap, hdict, h3, if_true, dictumPass, List.foldl,
    directivePass, optFold, Option.map, expiryFires]
  split_ifs <;> simp_all <;> (exfalso; omega)

/-- Witness for C8: the empty bill, created June 2013 and observed in
January 2015, is inside its period, and the theorem yields SUBMITTED. -/
theorem C8_submitted_unless_expired_witness :
    (toPopolo (fun _ => (⟨2013, 5⟩ : JsDate)) (⟨2015, 0⟩ : JsDate) emptyBill).map
        (fun r => r.1.stage) =
      some (if expiryFires ((fun _ => (⟨2013, 5⟩ : JsDate)) (some emptyBill.creationTime))
              (⟨2015, 0⟩ : JsDate) 2 then
              STAGE.PARLIAMENTARY_STATUS_LOST
            else STAGE.SUBMITTED) :=
  C8_submitted_unless_expired (fun _ => (⟨2013, 5⟩ : JsDate)) (⟨2015, 0⟩ : JsDate)
    emptyBill rfl rfl rfl

/-- C1, amended: for every raw bill with a truthy (non-empty) law number on
which `toPopolo` returns, the returned stage is APPROVED regardless of
dictum and procedure content, provided the parliamentary-period expiry rule
(with the invariant 2-year duration) does not fire. -/
theorem C1_law_approved_unless_expired (parse : Option String → JsDate)
    (now : JsDate) (bill : RawBill) (r : Bill × RawBill)
    (hlaw : jsFalsy bill.lawNumber = false)
    (hexp : expiryFires (parse (some bill.creationTime)) now 2 = false)
    (h : toPopolo parse now bill = some r) :
    r.1.stage = STAGE.APPROVED := by
  simp only [toPopolo] at h
  split at h
  · cases h
  · rename_i dirres hmp
    split at h
    · cases h
    · rename_i st2 hdp
      have hdur : st2.duration = 2 := directivePass_duration _ _ _ _ _ _ hdp
      simp only [expiryFires, Bool.or_eq_false_iff, decide_eq_false_iff_not] at hexp
      obtain ⟨hc1, hc2⟩ := hexp
      cases h
      simp only [hlaw, Bool.false_eq_true, if_false, hdur, hc2, hc1, if_neg]

/-- The concrete output of `toPopolo` on `C1wBill` (law number present,
inside the parliamentary period). -/
def C1wOut : Bill × RawBill :=
  (toPopolo (fun _ => (⟨2014, 5⟩ : JsDate)) (⟨2015, 0⟩ : JsDate) C1wBill).get (by decide)

/-- Witness for C1's amended theorem, applied to `C1wBill`. -/
theorem C1_law_approved_unless_expired_witness :
    C1wOut.1.stage = STAGE.APPROVED :=
  C1_law_approved_unless_expired (fun _ => (⟨2014, 5⟩ : JsDate)) (⟨2015, 0⟩ : JsDate)
    C1wBill C1wOut (by decide) (by decide) rfl

/-- A non-falsy optional string is present. -/
theorem jsFalsy_false_isSome (o : Option String) (h : jsFalsy o = false) : o.isSome := by
  cases o with
  | none => simp [jsFalsy] at h
  | some s => rfl

/-- When every dictum has a truthy date, the dictum map leaves the caller's
dictum records unchanged. -/
theorem mapDictums_post (file : String) (ds : List RawDictum)
    (h : ∀ d ∈ ds, jsFalsy d.date = false) :
    (mapDictums file ds).2 = ds := by
  induction ds with
  | nil => rfl
  | cons d ds ih =>
      have hd : jsFalsy d.date = false := h d (by simp)
      have ih2 := ih (fun x hx => h x (by simp [hx]))
      simp [mapDictums, dictumToPaperwork, hd, ih2]

/-- A procedure with a truthy date and topic maps to its directive without
throwing and without being mutated. -/
theorem procedureToDirective_post (file : String) (p : RawProcedure)
    (hd : jsFalsy p.date = false) (ht : jsFalsy p.topic = false) :
    procedureToDirective file p =
      some ({ date := p.date, step := p.topic, stage := p.result, link := "",
              bill_uid := file, bill_id := file, source := p.source }, p) := by
  simp [procedureToDirective, hd, ht]

/-- When every procedure has a truthy date and topic, the procedure map
succeeds, leaves the records unchanged, and every directive has a step. -/
theorem mapProcedures_post (file : String) (ps : List RawProcedure)
    (h : ∀ p ∈ ps, jsFalsy p.date = false ∧ jsFalsy p.topic = false) :
    ∃ dirs, mapProcedures file ps = some (dirs, ps) ∧ ∀ d ∈ dirs, d.step.isSome := by
  induction ps with
  | nil => exact ⟨[], rfl, by simp⟩
  | cons p ps ih =>
      obtain ⟨hd, ht⟩ := h p (by simp)
      obtain ⟨dirs, hmap, hstep⟩ := ih (fun x hx => h x (by simp [hx]))
      refine ⟨{ date := p.date, step := p.topic, stage := p.result, link := "",
                bill_uid := file, bill_id := file, source := p.source } :: dirs, ?_, ?_⟩
      · simp [mapProcedures, procedureToDirective_post file p hd ht, hmap]
      · intro d hd2
        rcases List.mem_cons.mp hd2 with h1 | h1
        · subst h1; exact jsFalsy_false_isSome p.topic ht
        · exact hstep d h1

/-- The directive pass returns (does not throw) whenever every directive
carries a step. -/
theorem directivePass_total (parse : Option String → JsDate) (cy : Int) (src : String)
    (st : InferState) (ds : List Directive) (h : ∀ d ∈ ds, d.step.isSome) :
    ∃ st2, directivePass parse cy src st ds = some st2 := by
  induction ds generalizing st with
  | nil => exact ⟨st, rfl⟩
  | cons d ds ih =>
      obtain ⟨s, hstep⟩ := Option.isSome_iff_exists.mp (h d (by simp))
      have hrev : revisoryBranch st d =
          some { st with stage := revisoryStageUpd s d.stage st.stage } := by
        simp [revisoryBranch, hstep]
      obtain ⟨st2, h2⟩ := ih { st with stage := revisoryStageUpd s d.stage st.stage }
        (fun x hx => h x (by simp [hx]))
      refine ⟨st2, ?_⟩
      simp only [directivePass, optFold, directiveStep_eq_revisory, hrev]
      exact h2

/-- C9, amended: `toPopolo` does not mutate its input provided every dictum
carries a truthy date and every procedure carries a truthy date and topic;
otherwise the missing fields are backfilled in place on the caller's
records. -/
theorem C9_no_mutation_when_fields_present (parse : Option String → JsDate)
    (now : JsDate) (bill : RawBill)
    (hd : ∀ d ∈ bill.dictums, jsFalsy d.date = false)
    (hp : ∀ p ∈ bill.procedures, jsFalsy p.date = false ∧ jsFalsy p.topic = false) :
    (toPopolo parse now bill).map (fun r => r.2) = some bill := by
  obtain ⟨dirs, hmap, hstep⟩ := mapProcedures_post bill.file bill.procedures hp
  have hdict := mapDictums_post bill.file bill.dictums hd
  obtain ⟨st2, hpass⟩ := directivePass_total parse (jsGetYear (parse (some bill.creationTime)))
    bill.source { stage := dictumPass bill.source STAGE.SUBMITTED
                    (mapDictums bill.file bill.dictums).1,
                  duration := 2 } dirs hstep
  simp only [toPopolo, hmap, hpass, hdict, Option.map]

/-- Witness for C9's amended theorem: `C9goodBill` has dates and topics
everywhere and comes back from `toPopolo` unchanged. -/
theorem C9_no_mutation_when_fields_present_witness :
    (toPopolo (fun _ => (⟨2014, 5⟩ : JsDate)) (⟨2015, 0⟩ : JsDate) C9goodBill).map
        (fun r => r.2) = some C9goodBill :=
  C9_no_mutation_when_fields_present (fun _ => (⟨2014, 5⟩ : JsDate))
    (⟨2015, 0⟩ : JsDate) C9goodBill (by decide) (by decide)
